/-
  Verification of the interrupt/exception subsystem of simple_os.

  Shallow embedding of the relevant program parts:
    * src/interrupts.rs — the interrupt descriptor table (IDT), the
      handler routines, the chained 8259 controller pair (PICS).
    * src/gdt.rs — the task-state segment (TSS), the global descriptor
      table (GDT) and its selectors, gdt::init.
    * src/lib.rs — the init sequencer and hlt_loop.
    * src/vga_buffer.rs — the framebuffer Writer and its write_str.

  Handlers are modelled as pure functions producing a list of observable
  events (sink output, port reads, end-of-interrupt signals) together
  with a terminal outcome (normal return, halt, kernel panic), following
  the usual state-free trace embedding of interrupt-driven code.
  Machine addresses are Nat; the link-time address of a static region
  appears as an explicit parameter.
-/
import Mathlib

/-! ## Observable behaviour: events and outcomes -/

/-- The interrupt stack frame the CPU pushes for a handler
    (x86_64::structures::idt::InterruptStackFrame). Field values are
    machine words, modelled as Nat. -/
structure InterruptStackFrame where
  instruction_pointer : Nat
  code_segment : Nat
  cpu_flags : Nat
  stack_pointer : Nat
  stack_segment : Nat
deriving DecidableEq, Repr

/-- One observable action of a handler body. print events correspond to
    the print!/println! sink, portRead to x86_64 Port::read, eoi to an
    end-of-interrupt byte sent to one 8259 controller (0 = primary,
    1 = secondary). -/
inductive Event where
  /-- println! of a fixed text line. -/
  | printStr (s : String)
  /-- println! of a fixed tag followed by the formatted stack frame
      (a single diagnostic record, as in the breakpoint handler). -/
  | printRecord (tag : String) (frame : InterruptStackFrame)
  /-- println! of the faulting virtual address read from Cr2. -/
  | printAccessedAddress (addr : Nat)
  /-- println! of the formatted PageFaultErrorCode bits. -/
  | printErrorCode (code : Nat)
  /-- println! of the formatted stack frame on its own. -/
  | printFrame (frame : InterruptStackFrame)
  /-- print! of one decoded unicode character. -/
  | printChar (c : Char)
  /-- print! of the debug form of a decoded raw key. -/
  | printKeyDebug (key : Nat)
  /-- Port::read on an I/O port, returning one byte. -/
  | portRead (port : Nat) (value : Nat)
  /-- end-of-interrupt signal to controller pic (0 primary, 1 secondary). -/
  | eoi (pic : Nat)
deriving DecidableEq, Repr

/-- How a handler body ends: a normal return to the interrupted code, a
    transition into the permanent hlt loop, or a kernel panic. The two
    divergent endings model functions of return type ! as an explicit
    terminal outcome. -/
inductive Outcome where
  | ret
  | halt
  | panicked (msg : String)
deriving DecidableEq, Repr

/-- Boolean test: is the event any print to the sink? -/
def Event.isPrint : Event → Bool
  | .printStr _ => true
  | .printRecord _ _ => true
  | .printAccessedAddress _ => true
  | .printErrorCode _ => true
  | .printFrame _ => true
  | .printChar _ => true
  | .printKeyDebug _ => true
  | _ => false

/-- Boolean test: is the event a port read? -/
def Event.isPortRead : Event → Bool
  | .portRead _ _ => true
  | _ => false

/-- Boolean test: is the event an end-of-interrupt signal? -/
def Event.isEoi : Event → Bool
  | .eoi _ => true
  | _ => false

/-! ## src/interrupts.rs — constants and the chained controllers -/

/-- interrupts.rs line 20: pub const PIC_1_OFFSET: u8 = 32. -/
def PIC_1_OFFSET : Nat := 32

/-- interrupts.rs line 21: pub const PIC_2_OFFSET: u8 = PIC_1_OFFSET + 8. -/
def PIC_2_OFFSET : Nat := PIC_1_OFFSET + 8

/-- interrupts.rs lines 29-33: enum InterruptIndex. Timer carries the
    value PIC_1_OFFSET; Keyboard, with no explicit discriminant, gets
    the successor value per Rust enum rules. -/
inductive InterruptIndex where
  | Timer
  | Keyboard
deriving DecidableEq, Repr

/-- interrupts.rs lines 37-40: fn as_u8 — the enum discriminant. -/
def InterruptIndex.as_u8 : InterruptIndex → Nat
  | .Timer => PIC_1_OFFSET
  | .Keyboard => PIC_1_OFFSET + 1

/-- interrupts.rs lines 42-45: fn as_usize. -/
def InterruptIndex.as_usize (i : InterruptIndex) : Nat :=
  i.as_u8

/-- One 8259 controller of the pic8259 crate: only its programmed
    vector offset matters for the logic verified here. -/
structure Pic where
  offset : Nat
deriving DecidableEq, Repr

/-- pic8259 Pic::handles_interrupt: the controller serves the eight
    vectors offset..offset+7. -/
def Pic.handles_interrupt (p : Pic) (interrupt_id : Nat) : Bool :=
  decide (p.offset ≤ interrupt_id ∧ interrupt_id < p.offset + 8)

/-- pic8259 ChainedPics: the primary/secondary controller pair. -/
structure ChainedPics where
  primary : Pic
  secondary : Pic
deriving DecidableEq, Repr

/-- pic8259 ChainedPics::new(offset1, offset2). The constructor is
    unsafe in the source: offsets that alias the reserved exception
    vectors 0..31 give undefined behaviour. -/
def ChainedPics.new (offset1 offset2 : Nat) : ChainedPics :=
  ⟨⟨offset1⟩, ⟨offset2⟩⟩

/-- pic8259 ChainedPics::handles_interrupt: either controller serves it. -/
def ChainedPics.handles_interrupt (c : ChainedPics) (interrupt_id : Nat) : Bool :=
  c.primary.handles_interrupt interrupt_id || c.secondary.handles_interrupt interrupt_id

/-- pic8259 ChainedPics::notify_end_of_interrupt, as the list of eoi
    events it emits: if the vector is served at all, a secondary-served
    vector first acknowledges the secondary, and the primary is always
    acknowledged afterwards (the cascade line feeds into it). -/
def ChainedPics.notify_end_of_interrupt (c : ChainedPics) (interrupt_id : Nat) : List Event :=
  if c.handles_interrupt interrupt_id then
    (if c.secondary.handles_interrupt interrupt_id then [Event.eoi 1] else []) ++ [Event.eoi 0]
  else []

/-- interrupts.rs lines 220-221: the global controller pair, built with
    the two fixed offsets. The spin::Mutex wrapper is elided: traces are
    single-threaded. -/
def PICS : ChainedPics :=
  ChainedPics.new PIC_1_OFFSET PIC_2_OFFSET

/-! ## src/interrupts.rs — the interrupt descriptor table -/

/-- Which handler routine of interrupts.rs an IDT entry points to. -/
inductive HandlerId where
  | breakpoint
  | double_fault
  | timer
  | keyboard
  | page_fault
deriving DecidableEq, Repr

/-- One IDT entry: the registered handler (none = entry missing, the
    state of a fresh table) and the optional IST stack index of its
    options. -/
structure IdtEntry where
  handler : Option HandlerId
  stack_index : Option Nat
deriving DecidableEq, Repr

/-- A fresh, unregistered entry. -/
def IdtEntry.missing : IdtEntry :=
  ⟨none, none⟩

/-- The 256-entry interrupt descriptor table, as a total map from
    vector number to entry. -/
def Idt : Type :=
  Fin 256 → IdtEntry

/-- x86_64 InterruptDescriptorTable::new(): every entry missing. -/
def Idt.new : Idt :=
  fun _ => IdtEntry.missing

/-- x86_64 Entry::set_handler_fn on the entry of vector v: records the
    handler and resets the entry options to their minimal defaults
    (no IST stack index). -/
def Idt.set_handler_fn (idt : Idt) (v : Nat) (h : HandlerId) : Idt :=
  fun n => if n.val = v then ⟨some h, none⟩ else idt n

/-- x86_64 EntryOptions::set_stack_index on the entry of vector v,
    applied after set_handler_fn as in the source. -/
def Idt.set_stack_index (idt : Idt) (v : Nat) (i : Nat) : Idt :=
  fun n => if n.val = v then ⟨(idt n).handler, some i⟩ else idt n

/-- gdt.rs line 33: pub const DOUBLE_FAULT_IST_INDEX: u16 = 0. -/
def DOUBLE_FAULT_IST_INDEX : Nat := 0

/-- interrupts.rs lines 60-74: the static IDT. The x86_64 named fields
    are the architectural vectors: breakpoint = 3, double_fault = 8,
    page_fault = 14; the timer and keyboard entries are indexed through
    InterruptIndex. -/
def IDT : Idt :=
  let idt := Idt.new
  let idt := idt.set_handler_fn 3 HandlerId.breakpoint
  let idt := (idt.set_handler_fn 8 HandlerId.double_fault).set_stack_index 8 DOUBLE_FAULT_IST_INDEX
  let idt := idt.set_handler_fn InterruptIndex.Timer.as_usize HandlerId.timer
  let idt := idt.set_handler_fn InterruptIndex.Keyboard.as_usize HandlerId.keyboard
  let idt := idt.set_handler_fn 14 HandlerId.page_fault
  idt

/-! ## src/gdt.rs — task-state segment and global descriptor table -/

/-- x86_64 TaskStateSegment: seven interrupt-stack-table slots and
    three privilege-stack-table slots, each a virtual address. -/
structure TaskStateSegment where
  interrupt_stack_table : Fin 7 → Nat
  privilege_stack_table : Fin 3 → Nat

/-- x86_64 TaskStateSegment::new(): all stack pointers zeroed. -/
def TaskStateSegment.new : TaskStateSegment :=
  ⟨fun _ => 0, fun _ => 0⟩

/-- gdt.rs line 70: const STACK_SIZE: usize = 4096 * 5. -/
def STACK_SIZE : Nat := 4096 * 5

/-- gdt.rs lines 65-78: the static TSS. The link-time address of the
    static STACK array is the parameter stack_start; the slot receives
    stack_end = stack_start + STACK_SIZE, the highest address of the
    region, since stacks grow downward. -/
def TSS (stack_start : Nat) : TaskStateSegment :=
  let tss := TaskStateSegment.new
  { tss with
    interrupt_stack_table := fun i =>
      if i.val = DOUBLE_FAULT_IST_INDEX then stack_start + STACK_SIZE
      else tss.interrupt_stack_table i }

/-- x86_64 gdt::Descriptor: a user segment occupies one GDT slot, a
    system segment (the TSS descriptor) two consecutive slots. -/
inductive Descriptor where
  | UserSegment (value : Nat)
  | SystemSegment (value_low : Nat) (value_high : Nat)
deriving DecidableEq, Repr

/-- x86_64 Descriptor::kernel_code_segment(): the fixed 64-bit kernel
    code descriptor bit pattern. -/
def Descriptor.kernel_code_segment : Descriptor :=
  Descriptor.UserSegment 0x00af9b000000ffff

/-- x86_64 Descriptor::tss_segment(&TSS), low quadword: present bit,
    the low 24 and next 8 base-address bits in their fields, the
    limit 0x67 and the available-TSS type. The parameter is the
    address of the TSS. -/
def tss_segment_low (addr : Nat) : Nat :=
  (1 <<< 47) ||| ((addr % (1 <<< 24)) <<< 16) ||| (((addr >>> 24) % 256) <<< 56)
    ||| 0x67 ||| (0b1001 <<< 40)

/-- x86_64 Descriptor::tss_segment(&TSS), high quadword: the upper
    32 bits of the base address. -/
def tss_segment_high (addr : Nat) : Nat :=
  addr >>> 32

/-- x86_64 Descriptor::tss_segment(&TSS). -/
def Descriptor.tss_segment (addr : Nat) : Descriptor :=
  Descriptor.SystemSegment (tss_segment_low addr) (tss_segment_high addr)

/-- x86_64 SegmentSelector: table index and requested privilege level
    (the 16-bit value is index <<< 3 ||| rpl). -/
structure SegmentSelector where
  index : Nat
  rpl : Nat
deriving DecidableEq, Repr

/-- x86_64 GlobalDescriptorTable: the ordered slot sequence. Slot 0 is
    the null descriptor installed by new() and never handed out; the
    source table has capacity 8, never exceeded by the three slots
    appended here. -/
structure GlobalDescriptorTable where
  table : List Nat
deriving DecidableEq, Repr

/-- x86_64 GlobalDescriptorTable::new(): only the null slot present. -/
def GlobalDescriptorTable.new : GlobalDescriptorTable :=
  ⟨[0]⟩

/-- x86_64 GlobalDescriptorTable::add_entry: append the descriptor
    quadwords at the end and return a selector whose index is the first
    slot just appended, with ring-0 privilege. -/
def GlobalDescriptorTable.add_entry (gdt : GlobalDescriptorTable) (d : Descriptor) :
    GlobalDescriptorTable × SegmentSelector :=
  match d with
  | Descriptor.UserSegment v =>
      (⟨gdt.table ++ [v]⟩, ⟨gdt.table.length, 0⟩)
  | Descriptor.SystemSegment lo hi =>
      (⟨gdt.table ++ [lo, hi]⟩, ⟨gdt.table.length, 0⟩)

/-- gdt.rs lines 124-128: struct Selectors. -/
structure Selectors where
  code_selector : SegmentSelector
  tss_selector : SegmentSelector
deriving DecidableEq, Repr

/-- gdt.rs lines 108-114: the static GDT with the kernel code segment
    and the TSS segment, plus the two selectors add_entry returned.
    tss_addr is the link-time address of the static TSS. -/
def GDT (tss_addr : Nat) : GlobalDescriptorTable × Selectors :=
  let gdt := GlobalDescriptorTable.new
  let (gdt, code_selector) := gdt.add_entry Descriptor.kernel_code_segment
  let (gdt, tss_selector) := gdt.add_entry (Descriptor.tss_segment tss_addr)
  (gdt, ⟨code_selector, tss_selector⟩)

/-! ## Init sequencing (src/lib.rs init, src/gdt.rs init) -/

/-- One step of the initialisation sequence, in the order the source
    executes them. The build steps are the lazy_static constructions
    forced at the first dereference of the statics. -/
inductive InitStep where
  /-- lazy_static construction of TSS (forced while building the GDT). -/
  | build_tss
  /-- lazy_static construction of the GDT pair. -/
  | build_gdt
  /-- GDT.0.load(): the lgdt instruction. -/
  | lgdt
  /-- CS::set_reg(sel): set the code-segment register. -/
  | set_cs (sel : SegmentSelector)
  /-- load_tss(sel): the ltr instruction loading the task register. -/
  | ltr (sel : SegmentSelector)
  /-- lazy_static construction of the IDT. -/
  | build_idt
  /-- IDT.load(): the lidt instruction. -/
  | lidt
  /-- PICS.lock().initialize(): the 8259 remap sequence. -/
  | pic_init
  /-- x86_64 interrupts::enable(): the sti instruction. -/
  | enable_interrupts
deriving DecidableEq, Repr

/-- gdt.rs lines 145-156: gdt::init(). The first GDT dereference forces
    the TSS and GDT constructions, then lgdt, then the two selector
    loads, in source order. -/
def gdt_init (tss_addr : Nat) : List InitStep :=
  [InitStep.build_tss, InitStep.build_gdt, InitStep.lgdt,
   InitStep.set_cs (GDT tss_addr).2.code_selector,
   InitStep.ltr (GDT tss_addr).2.tss_selector]

/-- interrupts.rs lines 83-86: init_idt() = IDT.load(), forcing the IDT
    construction first. -/
def init_idt : List InitStep :=
  [InitStep.build_idt, InitStep.lidt]

/-- lib.rs lines 170-176: init() = gdt::init(); interrupts::init_idt();
    PICS.lock().initialize(); interrupts::enable(). -/
def lib_init (tss_addr : Nat) : List InitStep :=
  gdt_init tss_addr ++ init_idt ++ [InitStep.pic_init, InitStep.enable_interrupts]

/-! ## src/lib.rs — hlt_loop, and src/interrupts.rs — the handlers -/

/-- lib.rs lines 178-184: hlt_loop() = loop with the hlt instruction,
    return type !. Its behaviour is the terminal halt outcome. -/
def hlt_loop : Outcome :=
  Outcome.halt

/-- interrupts.rs lines 95-98: the breakpoint handler. One println of
    the tag and the formatted stack frame, then a normal return. -/
def breakpoint_handler (stack_frame : InterruptStackFrame) : List Event × Outcome :=
  ([Event.printRecord "EXCEPTION: BREAKPOINT" stack_frame], Outcome.ret)

/-- interrupts.rs lines 110-115: the double fault handler, return
    type !: it panics with the formatted stack frame. -/
def double_fault_handler (_stack_frame : InterruptStackFrame) (_error_code : Nat) :
    List Event × Outcome :=
  ([], Outcome.panicked "EXCEPTION: DOUBLE FAULT")

/-- interrupts.rs lines 130-138: the timer handler. print! of a dot,
    then notify_end_of_interrupt on the timer vector, then return. -/
def timer_interrupt_handler : List Event × Outcome :=
  ([Event.printStr "."] ++ PICS.notify_end_of_interrupt InterruptIndex.Timer.as_u8,
   Outcome.ret)

/-- pc_keyboard KeyEvent: which key and whether it went down or up. -/
structure KeyEvent where
  code : Nat
  down : Bool
deriving DecidableEq, Repr

/-- pc_keyboard DecodedKey: a unicode character or a raw key code. -/
inductive DecodedKey where
  | Unicode (c : Char)
  | RawKey (code : Nat)
deriving DecidableEq, Repr

/-- interrupts.rs lines 160-194: the keyboard handler. The keyboard
    decoder is an external capability (pc_keyboard), stateful and
    exclusively locked in the source; its two operations on the locked
    state are passed as parameters: add_byte returns Ok(None) while a
    multi-byte sequence is incomplete, Ok(Some(event)) on a complete
    event, and Err on a malformed sequence; process_keyevent turns an
    event into an optional decoded key. The handler reads one byte from
    port 0x60, feeds it, prints the decoded key if any, and always ends
    with notify_end_of_interrupt on the keyboard vector. -/
def keyboard_interrupt_handler (scancode : Nat)
    (add_byte : Nat → Except Unit (Option KeyEvent))
    (process_keyevent : KeyEvent → Option DecodedKey) : List Event × Outcome :=
  let readEvents : List Event := [Event.portRead 0x60 scancode]
  let keyEvents : List Event :=
    match add_byte scancode with
    | Except.ok (some key_event) =>
        match process_keyevent key_event with
        | some (DecodedKey.Unicode character) => [Event.printChar character]
        | some (DecodedKey.RawKey key) => [Event.printKeyDebug key]
        | none => []
    | Except.ok none => []
    | Except.error _ => []
  (readEvents ++ keyEvents ++ PICS.notify_end_of_interrupt InterruptIndex.Keyboard.as_u8,
   Outcome.ret)

/-- interrupts.rs lines 196-205: the page fault handler. Four printlns
    (fixed header, the Cr2 faulting address, the error code bits, the
    stack frame), then hlt_loop, which never returns. -/
def page_fault_handler (cr2 : Nat) (error_code : Nat)
    (stack_frame : InterruptStackFrame) : List Event × Outcome :=
  ([Event.printStr "EXCEPTION: PAGE FAULT",
    Event.printAccessedAddress cr2,
    Event.printErrorCode error_code,
    Event.printFrame stack_frame],
   hlt_loop)

/-! ## src/vga_buffer.rs — the framebuffer writer -/

namespace vga_buffer

/-- vga_buffer.rs line 95. -/
def BUFFER_HEIGHT : Nat := 25

/-- vga_buffer.rs line 96. -/
def BUFFER_WIDTH : Nat := 80

/-- vga_buffer.rs lines 54-56: the packed foreground/background byte. -/
structure ColorCode where
  val : Nat
deriving DecidableEq, Repr

/-- vga_buffer.rs lines 60-63: ColorCode::new. Colors are their u8
    discriminants. -/
def ColorCode.new (foreground background : Nat) : ColorCode :=
  ⟨(background <<< 4) ||| foreground⟩

/-- vga_buffer.rs lines 76-82: one character cell. -/
structure ScreenChar where
  ascii_character : Nat
  color_code : ColorCode
deriving DecidableEq, Repr

/-- vga_buffer.rs lines 113-118: the Writer. The buffer is the 25 x 80
    cell grid behind the &mut Buffer reference. -/
structure Writer where
  column_position : Nat
  color_code : ColorCode
  buffer : Fin BUFFER_HEIGHT → Fin BUFFER_WIDTH → ScreenChar

/-- vga_buffer.rs lines 209-220: clear_row — fill one row with blank
    cells in the current color. -/
def Writer.clear_row (w : Writer) (row : Nat) : Writer :=
  { w with buffer := fun r c =>
      if r.val = row then ⟨32, w.color_code⟩ else w.buffer r c }

/-- vga_buffer.rs lines 187-199: new_line — shift every row up by one,
    clear the bottom row, reset the column. -/
def Writer.new_line (w : Writer) : Writer :=
  let shifted : Writer :=
    { w with buffer := fun r c =>
        if h : r.val + 1 < BUFFER_HEIGHT then w.buffer ⟨r.val + 1, h⟩ c
        else w.buffer r c }
  { shifted.clear_row (BUFFER_HEIGHT - 1) with column_position := 0 }

/-- vga_buffer.rs lines 131-153: write_byte — newline byte wraps;
    otherwise wrap first if the line is full, then store the byte at
    the bottom row in the current column and advance the column. -/
def Writer.write_byte (w : Writer) (byte : Nat) : Writer :=
  if byte = 10 then w.new_line
  else
    let w := if BUFFER_WIDTH ≤ w.column_position then w.new_line else w
    let row := BUFFER_HEIGHT - 1
    let col := w.column_position
    let w' := { w with buffer := fun r c =>
      if r.val = row ∧ c.val = col then ⟨byte, w.color_code⟩ else w.buffer r c }
    { w' with column_position := w'.column_position + 1 }

/-- vga_buffer.rs lines 164-176: write_string — each byte in the
    printable ASCII range or the newline byte is written as is, every
    other byte as 0xfe. The Rust &str is its byte sequence. -/
def Writer.write_string (w : Writer) (s : List Nat) : Writer :=
  match s with
  | [] => w
  | byte :: rest =>
      let w := if (0x20 ≤ byte ∧ byte ≤ 0x7e) ∨ byte = 10
               then w.write_byte byte else w.write_byte 0xfe
      w.write_string rest

/-- core::fmt::Result — Ok(()) or a formatting error. -/
inductive FmtResult where
  | ok
  | error
deriving DecidableEq, Repr

/-- vga_buffer.rs lines 231-238: the fmt::Write impl — write_str calls
    write_string and unconditionally returns Ok(()). -/
def Writer.write_str (w : Writer) (s : List Nat) : Writer × FmtResult :=
  (w.write_string s, FmtResult.ok)

/-- vga_buffer.rs lines 288-292: _print locks the writer and calls
    write_fmt, unwrapping the result; write_fmt feeds each formatted
    piece through write_str and fails iff some piece returns an error.
    The Bool records whether the unwrap panics. -/
def _print (w : Writer) (pieces : List (List Nat)) : Writer × Bool :=
  match pieces with
  | [] => (w, false)
  | s :: rest =>
      match w.write_str s with
      | (w', FmtResult.ok) => _print w' rest
      | (w', FmtResult.error) => (w', true)

end vga_buffer

/-! ## Evaluation lemmas shared by the handler theorems -/

/-- The keyboard vector 33 is served by the primary controller alone,
    so its end-of-interrupt notification is a single primary signal. -/
theorem pics_ack_keyboard :
    ChainedPics.notify_end_of_interrupt PICS InterruptIndex.Keyboard.as_u8 = [Event.eoi 0] :=
  rfl

/-- The timer vector 32 is served by the primary controller alone,
    so its end-of-interrupt notification is a single primary signal. -/
theorem pics_ack_timer :
    ChainedPics.notify_end_of_interrupt PICS InterruptIndex.Timer.as_u8 = [Event.eoi 0] :=
  rfl

/-- The _print loop never reaches its error arm, because write_str
    always answers ok. -/
theorem vga_print_no_panic (w : vga_buffer.Writer) (pieces : List (List Nat)) :
    (vga_buffer._print w pieces).2 = false := by
  induction pieces generalizing w with
  | nil => rfl
  | cons s rest ih => exact ih (vga_buffer.Writer.write_string w s)

/-! ## The claims -/

/-- Claim C1: the constructed IDT binds exactly the fixed design
    assignment — vector 3 to the breakpoint handler, vector 8 to the
    double-fault handler with the alternate-stack index attached,
    vector 14 to the page-fault handler, vector 32 to the timer handler,
    vector 33 to the keyboard handler — and every other vector keeps its
    fresh missing entry. -/
theorem idt_vector_assignment :
    ∀ v : Fin 256, IDT v =
      if v.val = 3 then ⟨some HandlerId.breakpoint, none⟩
      else if v.val = 8 then ⟨some HandlerId.double_fault, some DOUBLE_FAULT_IST_INDEX⟩
      else if v.val = 14 then ⟨some HandlerId.page_fault, none⟩
      else if v.val = 32 then ⟨some HandlerId.timer, none⟩
      else if v.val = 33 then ⟨some HandlerId.keyboard, none⟩
      else IdtEntry.missing := by
  set_option maxRecDepth 8192 in decide

/-- Claim C2: in the constructed TSS only interrupt-stack-table slot 0
    is populated, holding the top address of the statically reserved
    region of exactly 20 KiB, and every other slot keeps its zeroed
    initial value. -/
theorem tss_ist_slot_zero_only (stack_start : Nat) :
    STACK_SIZE = 20480 ∧
    ∀ i : Fin 7, (TSS stack_start).interrupt_stack_table i =
      if i.val = DOUBLE_FAULT_IST_INDEX then stack_start + STACK_SIZE else 0 :=
  ⟨rfl, fun _ => rfl⟩

/-- Claim C3: init() performs its steps in exactly the fixed order —
    build the tables, lgdt, set the code-segment register from the code
    selector, load the task register from the task selector, build and
    load the IDT, initialise the controllers, enable interrupts — with
    no step omitted, duplicated, or reordered. -/
theorem init_fixed_order (tss_addr : Nat) :
    lib_init tss_addr =
      [InitStep.build_tss, InitStep.build_gdt, InitStep.lgdt,
       InitStep.set_cs (GDT tss_addr).2.code_selector,
       InitStep.ltr (GDT tss_addr).2.tss_selector,
       InitStep.build_idt, InitStep.lidt,
       InitStep.pic_init, InitStep.enable_interrupts] ∧
    (GDT tss_addr).2.code_selector = ⟨1, 0⟩ ∧
    (GDT tss_addr).2.tss_selector = ⟨2, 0⟩ :=
  ⟨rfl, rfl, rfl⟩

/-- Claim C4: the controller pair is built with offsets satisfying the
    constructor precondition — both offsets at least 32, the secondary
    exactly 8 above the primary — and the 16 remapped vectors 32..47
    all lie strictly above the reserved exception range 0..31. -/
theorem pics_offsets_satisfy_precondition :
    32 ≤ PICS.primary.offset ∧ 32 ≤ PICS.secondary.offset ∧
    PICS.secondary.offset = PICS.primary.offset + 8 ∧
    ∀ line : Fin 16,
      32 ≤ PICS.primary.offset + line.val ∧
      PICS.primary.offset + line.val ≤ 47 ∧
      31 < PICS.primary.offset + line.val := by
  decide

/-- Claim C5: on every invocation the page-fault handler emits the
    faulting virtual address, the error-code bit flags and the captured
    stack frame to the sink, and its outcome is the halt loop, never a
    normal return. -/
theorem page_fault_reports_then_halts (cr2 error_code : Nat)
    (stack_frame : InterruptStackFrame) :
    page_fault_handler cr2 error_code stack_frame =
      ([Event.printStr "EXCEPTION: PAGE FAULT",
        Event.printAccessedAddress cr2,
        Event.printErrorCode error_code,
        Event.printFrame stack_frame],
       Outcome.halt) ∧
    hlt_loop = Outcome.halt :=
  ⟨rfl, rfl⟩

/-- Claim C6: every keyboard-handler invocation starts by reading
    exactly one byte from port 0x60, emits a print event exactly when
    the decoder yields a complete decoded key, and in every case ends
    with exactly one end-of-interrupt signal, to the primary controller,
    as its final action. -/
theorem keyboard_one_read_conditional_print_one_ack (scancode : Nat)
    (add_byte : Nat → Except Unit (Option KeyEvent))
    (process_keyevent : KeyEvent → Option DecodedKey) :
    (keyboard_interrupt_handler scancode add_byte process_keyevent).1.head? =
      some (Event.portRead 0x60 scancode) ∧
    (keyboard_interrupt_handler scancode add_byte process_keyevent).1.countP
      Event.isPortRead = 1 ∧
    (keyboard_interrupt_handler scancode add_byte process_keyevent).1.countP
      Event.isEoi = 1 ∧
    (keyboard_interrupt_handler scancode add_byte process_keyevent).1.getLast? =
      some (Event.eoi 0) ∧
    (keyboard_interrupt_handler scancode add_byte process_keyevent).1.countP
      Event.isPrint =
      (match add_byte scancode with
       | Except.ok (some key_event) =>
           (match process_keyevent key_event with
            | some _ => 1
            | none => 0)
       | Except.ok none => 0
       | Except.error _ => 0) ∧
    (keyboard_interrupt_handler scancode add_byte process_keyevent).2 = Outcome.ret := by
  cases hab : add_byte scancode with
  | error e =>
      simp only [keyboard_interrupt_handler, hab]
      refine ⟨?_, ?_, ?_, ?_, ?_, ?_⟩ <;> trivial
  | ok oe =>
      cases oe with
      | none =>
          simp only [keyboard_interrupt_handler, hab]
          refine ⟨?_, ?_, ?_, ?_, ?_, ?_⟩ <;> trivial
      | some key_event =>
          cases hpk : process_keyevent key_event with
          | none =>
              simp only [keyboard_interrupt_handler, hab, hpk]
              refine ⟨?_, ?_, ?_, ?_, ?_, ?_⟩ <;> trivial
          | some dk =>
              cases dk with
              | Unicode c =>
                  simp only [keyboard_interrupt_handler, hab, hpk]
                  refine ⟨?_, ?_, ?_, ?_, ?_, ?_⟩ <;> trivial
              | RawKey k =>
                  simp only [keyboard_interrupt_handler, hab, hpk]
                  refine ⟨?_, ?_, ?_, ?_, ?_, ?_⟩ <;> trivial

/-- Claim C7: every timer-handler invocation first emits the liveness
    marker and then exactly one end-of-interrupt signal, to the primary
    controller only, and vector 32 lies below the secondary offset so
    the secondary controller does not serve it. -/
theorem timer_marker_then_single_primary_ack :
    timer_interrupt_handler = ([Event.printStr ".", Event.eoi 0], Outcome.ret) ∧
    timer_interrupt_handler.1.countP Event.isEoi = 1 ∧
    timer_interrupt_handler.1.getLast? = some (Event.eoi 0) ∧
    InterruptIndex.Timer.as_u8 < PIC_2_OFFSET ∧
    PICS.secondary.handles_interrupt InterruptIndex.Timer.as_u8 = false := by
  refine ⟨rfl, rfl, rfl, ?_, rfl⟩
  decide

/-- Claim C8: the breakpoint handler is non-fatal — it emits exactly
    one diagnostic record carrying the captured stack frame and its
    outcome is a normal return. -/
theorem breakpoint_single_record_then_return (stack_frame : InterruptStackFrame) :
    breakpoint_handler stack_frame =
      ([Event.printRecord "EXCEPTION: BREAKPOINT" stack_frame], Outcome.ret) ∧
    (breakpoint_handler stack_frame).1.countP Event.isPrint = 1 :=
  ⟨rfl, rfl⟩

/-- Claim C9: in the constructed GDT slot 0 is the reserved null
    descriptor, and the two issued selectors have table indexes 1 and 2,
    so neither references the null slot. -/
theorem gdt_null_slot_never_selected (tss_addr : Nat) :
    (GDT tss_addr).1.table.head? = some 0 ∧
    GlobalDescriptorTable.new.table = [0] ∧
    (GDT tss_addr).2.code_selector.index = 1 ∧
    (GDT tss_addr).2.tss_selector.index = 2 :=
  ⟨rfl, rfl, rfl, rfl⟩

/-- Claim C10: the framebuffer writer is infallible at its formatting
    interface — write_str answers ok on every input string, and the
    _print path that unwraps the formatting result never panics. -/
theorem write_str_infallible (w : vga_buffer.Writer) (s : List Nat) :
    (vga_buffer.Writer.write_str w s).2 = vga_buffer.FmtResult.ok ∧
    ∀ pieces : List (List Nat), (vga_buffer._print w pieces).2 = false :=
  ⟨rfl, fun pieces => vga_print_no_panic w pieces⟩
